import Mathlib

/-!
Verification of the Mux webhook receiver (`src/app/api/videos/webhook/route.ts`)
of the NewTube repository.

The route handler `POST` is embedded shallowly:

* JSON values are modelled by the inductive `Json`; `Json.parse` models the
  platform builtin `JSON.parse` (as invoked by `request.json()`) and
  `Json.stringify` models the compact output of the builtin `JSON.stringify`,
  on the JSON fragment this flow exchanges (objects, arrays, strings without
  unicode escapes, decimal numbers without exponents, booleans, null).
* The database table `videos` accessed through drizzle is a `List VideoRecord`;
  `select ... limit 1` is `List.find?`, `update ... where eq(col, v)` maps the
  patch over the matching rows, `delete ... where` filters them out.
  Following drizzle semantics, a column whose patch value is `undefined` is
  omitted from the update (`setOrKeep`); JSON `null` and an absent field are
  both modelled as `none` (the payloads of this flow use no explicit nulls).
* External collaborators are parameters of `Env`: `verify` is
  `mux.webhooks.verifySignature` (truth value = verification success),
  `mirror` is `utapi.uploadFilesFromUrl` (`none` = failure/thrown error,
  `some (key, url)` = success), `del` is `utapi.deleteFiles` whose
  result/exception the route discards, `now` is `new Date()`.
* Numbers are decimal literals, carried exactly as mantissa × 10^(-exponent)
  pairs (`DecNum`, with rational value `DecNum.toRat`); JavaScript
  `Math.round` (half-up, `⌊x + 1/2⌋`) composed with the `* 1000` scaling of
  the route is `roundMilli`, proved equal to the `⌊q * 1000 + 1/2⌋` formula
  in `roundMilli_eq_floor`.
* A handler returns the HTTP status of the response together with the
  resulting table state.
-/

/-- A decimal number value `mant / 10 ^ exp10`, the exact value of a JSON
number literal without exponent part (the fragment this flow exchanges).
Parsing keeps it normalised: `exp10 = 0`, or the mantissa is nonzero and not
divisible by ten. -/
structure DecNum where
  mant : Int
  exp10 : Nat
  deriving DecidableEq, Repr

/-- The rational value of a decimal number. -/
def DecNum.toRat (n : DecNum) : ℚ :=
  (n.mant : ℚ) / 10 ^ n.exp10

/-- Strip factors of ten from the mantissa into the exponent. -/
def stripTens : Int → Nat → Int × Nat
  | m, 0 => (m, 0)
  | m, e + 1 => if m % 10 = 0 then stripTens (m / 10) e else (m, e + 1)

/-- Normalising constructor: the form `JSON.parse` produces (and JavaScript
prints back), with trailing zero decimals removed. -/
def DecNum.make (m : Int) (e : Nat) : DecNum :=
  if m = 0 then ⟨0, 0⟩
  else ⟨(stripTens m e).1, (stripTens m e).2⟩

/-- JSON values; numbers are modelled as exact decimals. -/
inductive Json where
  | null : Json
  | bool (b : Bool) : Json
  | num (q : DecNum) : Json
  | str (s : String) : Json
  | arr (elems : List Json) : Json
  | obj (fields : List (String × Json)) : Json

/-- Whitespace accepted between JSON tokens. -/
def isWsChar (c : Char) : Bool :=
  c = ' ' || c = '\t' || c = '\n' || c = '\r'

/-- Drop leading JSON whitespace. -/
def skipWs : List Char → List Char
  | [] => []
  | c :: cs => if isWsChar c then skipWs cs else c :: cs

/-- Decoding of a character following a backslash inside a JSON string. -/
def escChar (e : Char) : Option Char :=
  if e = 'n' then some '\n'
  else if e = 't' then some '\t'
  else if e = 'r' then some '\r'
  else if e = '"' ∨ e = '\\' ∨ e = '/' then some e
  else if e = 'b' then some (Char.ofNat 8)
  else if e = 'f' then some (Char.ofNat 12)
  else none

/-- Scan the characters of a JSON string after its opening quote; returns the
decoded characters and the remaining input. -/
def scanStr : List Char → List Char → Option (List Char × List Char)
  | _, [] => none
  | acc, '"' :: cs => some (acc.reverse, cs)
  | acc, '\\' :: e :: cs =>
    match escChar e with
    | some c => scanStr (c :: acc) cs
    | none => none
  | acc, c :: cs => scanStr (c :: acc) cs

/-- Value of a decimal digit character. -/
def digitVal (c : Char) : Option Nat :=
  if '0' ≤ c ∧ c ≤ '9' then some (c.toNat - 48) else none

/-- Consume a run of decimal digits, returning value, digit count and rest. -/
def takeDigits : Nat → Nat → List Char → Nat × Nat × List Char
  | v, n, [] => (v, n, [])
  | v, n, c :: cs =>
    match digitVal c with
    | some d => takeDigits (v * 10 + d) (n + 1) cs
    | none => (v, n, c :: cs)

/-- Parse the digits of a JSON number (integer part and optional fraction),
the sign having been consumed by the caller. -/
def scanNum (neg : Bool) (cs : List Char) : Option (DecNum × List Char) :=
  match takeDigits 0 0 cs with
  | (_, 0, _) => none
  | (ip, _, rest1) =>
    match rest1 with
    | '.' :: cs2 =>
      match takeDigits 0 0 cs2 with
      | (_, 0, _) => none
      | (fp, n2, rest3) =>
        let m : Int := (ip : Int) * 10 ^ n2 + (fp : Int)
        some (DecNum.make (if neg then -m else m) n2, rest3)
    | _ =>
      some (DecNum.make (if neg then -(ip : Int) else (ip : Int)) 0, rest1)

mutual

/-- Fuel-indexed recursive-descent JSON value reader.  The input is assumed
to start at a non-whitespace character. -/
def parseVal : Nat → List Char → Option (Json × List Char)
  | 0, _ => none
  | _, [] => none
  | fuel + 1, c :: cs =>
    if c = '"' then
      match scanStr [] cs with
      | some (chars, rest) => some (.str (String.mk chars), rest)
      | none => none
    else if c = '\x7b' then
      match skipWs cs with
      | '\x7d' :: rest => some (.obj [], rest)
      | cs2 => parseObjFields fuel cs2 []
    else if c = '[' then
      match skipWs cs with
      | ']' :: rest => some (.arr [], rest)
      | cs2 => parseArrElems fuel cs2 []
    else if c = '-' then
      match scanNum true cs with
      | some (q, rest) => some (.num q, rest)
      | none => none
    else if (digitVal c).isSome then
      match scanNum false (c :: cs) with
      | some (q, rest) => some (.num q, rest)
      | none => none
    else if c = 't' then
      match cs with
      | 'r' :: 'u' :: 'e' :: rest => some (.bool true, rest)
      | _ => none
    else if c = 'f' then
      match cs with
      | 'a' :: 'l' :: 's' :: 'e' :: rest => some (.bool false, rest)
      | _ => none
    else if c = 'n' then
      match cs with
      | 'u' :: 'l' :: 'l' :: rest => some (.null, rest)
      | _ => none
    else none

/-- Read the elements of a non-empty JSON array body. -/
def parseArrElems : Nat → List Char → List Json → Option (Json × List Char)
  | 0, _, _ => none
  | fuel + 1, cs, acc =>
    match parseVal fuel cs with
    | none => none
    | some (v, rest) =>
      match skipWs rest with
      | ',' :: rest2 => parseArrElems fuel (skipWs rest2) (v :: acc)
      | ']' :: rest2 => some (.arr (v :: acc).reverse, rest2)
      | _ => none

/-- Read the members of a non-empty JSON object body. -/
def parseObjFields : Nat → List Char → List (String × Json) →
    Option (Json × List Char)
  | 0, _, _ => none
  | fuel + 1, cs, acc =>
    match cs with
    | '"' :: cs1 =>
      match scanStr [] cs1 with
      | none => none
      | some (kchars, rest1) =>
        match skipWs rest1 with
        | ':' :: rest2 =>
          match parseVal fuel (skipWs rest2) with
          | none => none
          | some (v, rest3) =>
            match skipWs rest3 with
            | ',' :: rest4 =>
              parseObjFields fuel (skipWs rest4) ((String.mk kchars, v) :: acc)
            | '\x7d' :: rest4 =>
              some (.obj ((String.mk kchars, v) :: acc).reverse, rest4)
            | _ => none
        | _ => none
    | _ => none

end

/-- Model of the platform builtin `JSON.parse` as used by `request.json()`:
total parse of the whole input, `none` on malformed input (the thrown
`SyntaxError`). -/
def Json.parse (s : String) : Option Json :=
  match parseVal (s.length + 1) (skipWs s.data) with
  | some (v, rest) => if (skipWs rest).isEmpty then some v else none
  | none => none

/-- Escaping applied by `JSON.stringify` to string contents (fragment:
quote and backslash; the payloads of this flow use no control characters). -/
def escString (s : String) : String :=
  String.mk (s.data.foldr
    (fun c acc =>
      if c = '"' then '\\' :: '"' :: acc
      else if c = '\\' then '\\' :: '\\' :: acc
      else c :: acc) [])

/-- Decimal rendering of a number, as `JSON.stringify` prints JavaScript
numbers in the non-exponent range (shortest decimal form; parsing normalised
the decimal, so no trailing fraction zeros remain). -/
def decNumToString (n : DecNum) : String :=
  let sign := if n.mant < 0 then "-" else ""
  let digits := (toString n.mant.natAbs).data
  match n.exp10 with
  | 0 => sign ++ String.mk digits
  | e + 1 =>
    let padded :=
      if digits.length ≤ e + 1 then
        List.replicate (e + 2 - digits.length) '0' ++ digits
      else digits
    sign ++ String.mk (padded.take (padded.length - (e + 1))) ++ "." ++
      String.mk (padded.drop (padded.length - (e + 1)))

mutual

/-- Model of the platform builtin `JSON.stringify`: compact output, no
inserted whitespace, members in insertion order. -/
def Json.stringify : Json → String
  | .null => "null"
  | .bool true => "true"
  | .bool false => "false"
  | .num n => decNumToString n
  | .str s => "\"" ++ escString s ++ "\""
  | .arr elems => "[" ++ stringifyElems elems ++ "]"
  | .obj fields => "\x7b" ++ stringifyFields fields ++ "\x7d"

/-- Comma-separated rendering of array elements. -/
def stringifyElems : List Json → String
  | [] => ""
  | [v] => Json.stringify v
  | v :: rest => Json.stringify v ++ "," ++ stringifyElems rest

/-- Comma-separated rendering of object members. -/
def stringifyFields : List (String × Json) → String
  | [] => ""
  | [(k, v)] => "\"" ++ escString k ++ "\":" ++ Json.stringify v
  | (k, v) :: rest =>
    "\"" ++ escString k ++ "\":" ++ Json.stringify v ++ "," ++
      stringifyFields rest

end

/-- JavaScript property access `j.k` on a parsed JSON value: a member lookup
on objects (later duplicate keys shadow earlier ones, as in `JSON.parse`),
`undefined` (`none`) on every other value. -/
def jsGet : Json → String → Option Json
  | .obj fields, k => fields.reverse.lookup k
  | _, _ => none

/-- JavaScript truthiness of a JSON value. -/
def jsTruthy : Json → Bool
  | .null => false
  | .bool b => b
  | .num n => decide (n.mant ≠ 0)
  | .str s => decide (s ≠ "")
  | .arr _ => true
  | .obj _ => true

/-- Truthiness of a possibly-undefined string (`!x` in the route's guards):
`undefined` and the empty string are falsy. -/
def strTruthy : Option String → Bool
  | none => false
  | some s => decide (s ≠ "")

/-- One row of the `videos` table (the columns this route reads or writes).
`duration` is the stored millisecond count, `updatedAt` an abstract clock
value. -/
structure VideoRecord where
  id : Nat
  muxUploadId : String
  muxAssetId : Option String := none
  muxStatus : Option String := none
  muxPlaybackId : Option String := none
  duration : Int := 0
  thumbnailKey : Option String := none
  thumbnailUrl : Option String := none
  previewKey : Option String := none
  previewUrl : Option String := none
  muxTrackId : Option String := none
  muxTrackStatus : Option String := none
  updatedAt : Nat := 0
  deriving DecidableEq, Repr

/-- One entry of a `playback_ids` array. -/
structure PlaybackId where
  id : Option String := none
  deriving DecidableEq, Repr

/-- The fields the route reads from `payload.data` across its event kinds
(the TypeScript casts perform no runtime conversion, so decoding is plain
field access; an absent field is `none`). -/
structure AssetEventData where
  upload_id : Option String := none
  id : Option String := none
  status : Option String := none
  playback_ids : List PlaybackId := []
  duration : Option DecNum := none
  asset_id : Option String := none
  deriving DecidableEq, Repr

/-- A field access `jsGet d k` projected to a string value. -/
def getStr (d : Json) (k : String) : Option String :=
  match jsGet d k with
  | some (.str s) => some s
  | _ => none

/-- A field access `jsGet d k` projected to a numeric value. -/
def getNum (d : Json) (k : String) : Option DecNum :=
  match jsGet d k with
  | some (.num q) => some q
  | _ => none

/-- Field extraction performed on `payload.data` (the runtime effect of the
`payload.data as ...` casts followed by property reads); `playback_ids` is
read through the optional chain `data.playback_ids?.[0]?.id`. -/
def decodeData (d : Json) : AssetEventData :=
  { upload_id := getStr d "upload_id"
    id := getStr d "id"
    status := getStr d "status"
    playback_ids :=
      match jsGet d "playback_ids" with
      | some (.arr elems) => elems.map (fun j => { id := getStr j "id" })
      | _ => []
    duration := getNum d "duration"
    asset_id := getStr d "asset_id" }

/-- `select ... where eq(videos.muxUploadId, uid) limit 1`. -/
def findByUploadId (db : List VideoRecord) (uid : String) :
    Option VideoRecord :=
  db.find? (fun r => r.muxUploadId = uid)

/-- `select ... where eq(videos.muxAssetId, aid) limit 1`. -/
def findByAssetId (db : List VideoRecord) (aid : String) :
    Option VideoRecord :=
  db.find? (fun r => r.muxAssetId = some aid)

/-- `update(videos).set(...).where(eq(videos.muxUploadId, uid))`. -/
def updateByUploadId (db : List VideoRecord) (uid : String)
    (f : VideoRecord → VideoRecord) : List VideoRecord :=
  db.map (fun r => if r.muxUploadId = uid then f r else r)

/-- `update(videos).set(...).where(eq(videos.muxAssetId, aid))`. -/
def updateByAssetId (db : List VideoRecord) (aid : String)
    (f : VideoRecord → VideoRecord) : List VideoRecord :=
  db.map (fun r => if r.muxAssetId = some aid then f r else r)

/-- `delete(videos).where(eq(videos.id, i))`. -/
def deleteById (db : List VideoRecord) (i : Nat) : List VideoRecord :=
  db.filter (fun r => ¬ r.id = i)

/-- `delete(videos).where(eq(videos.muxUploadId, uid))`. -/
def deleteByUploadId (db : List VideoRecord) (uid : String) :
    List VideoRecord :=
  db.filter (fun r => ¬ r.muxUploadId = uid)

/-- Drizzle `.set` semantics for one column: a `none` (undefined) patch value
leaves the column out of the update, keeping its prior value. -/
def setOrKeep (v old : Option String) : Option String :=
  match v with
  | some s => some s
  | none => old

/-- JavaScript `Math.round`: nearest integer, halves toward positive
infinity. -/
def jsRound (q : ℚ) : Int :=
  Int.floor (q + 1 / 2)

/-- The route computation `Math.round(data.duration * 1000)` on a decimal
number, carried out in integer arithmetic (`roundMilli_eq_floor` below shows
it is the half-up rounding of the rational value scaled by 1000). -/
def roundMilli (n : DecNum) : Int :=
  Int.fdiv (2000 * n.mant + 10 ^ n.exp10) (2 * 10 ^ n.exp10)

/-- The environment of one invocation: configured secret, external-service
behaviours and the current time. -/
structure Env where
  secret : Option String
  verify : String → String → String → Bool
  mirror : String → Option (String × String)
  del : String → Bool
  now : Nat

/-- The `.set({...})` block of the `video.asset.created` case. -/
def createdPatch (now : Nat) (d : AssetEventData) (r : VideoRecord) :
    VideoRecord :=
  { r with
    muxAssetId := setOrKeep d.id r.muxAssetId
    muxStatus := setOrKeep d.status r.muxStatus
    updatedAt := now }

/-- The `video.asset.created` case (route.ts lines 74-109): require a truthy
`upload_id`, look the record up, then set `muxAssetId`, `muxStatus` and
`updatedAt` on the matching rows. -/
def handleAssetCreated (now : Nat) (d : AssetEventData)
    (db : List VideoRecord) : Nat × List VideoRecord :=
  if strTruthy d.upload_id then
    let uid := d.upload_id.getD ""
    match findByUploadId db uid with
    | none => (404, db)
    | some _ => (200, updateByUploadId db uid (createdPatch now d))
  else (400, db)

/-- The temporary Mux thumbnail URL built for a playback id. -/
def thumbSourceUrl (pb : String) : String :=
  "https://image.mux.com/" ++ pb ++ "/thumbnail.jpg"

/-- The temporary Mux animated-preview URL built for a playback id. -/
def previewSourceUrl (pb : String) : String :=
  "https://image.mux.com/" ++ pb ++ "/animated.gif"

/-- The `const duration = data.duration ? Math.round(data.duration * 1000) : 0`
computation of the `video.asset.ready` case (route.ts line 140). -/
def durationOf (d : AssetEventData) : Int :=
  match d.duration with
  | some q => if q.mant ≠ 0 then roundMilli q else 0
  | none => 0

/-- The `updateData` object of the `video.asset.ready` case (route.ts lines
174-190): the primary fields are always written; each mirrored location pair
is added only when its upload succeeded with truthy key and URL. -/
def readyPatch (now : Nat) (d : AssetEventData) (pb : String)
    (thumb preview : Option (String × String)) (r : VideoRecord) :
    VideoRecord :=
  let r1 :=
    { r with
      muxStatus := setOrKeep d.status r.muxStatus
      muxPlaybackId := some pb
      muxAssetId := setOrKeep d.id r.muxAssetId
      duration := durationOf d
      updatedAt := now }
  let r2 :=
    match thumb with
    | some (k, u) =>
      if u ≠ "" ∧ k ≠ "" then
        { r1 with thumbnailUrl := some u, thumbnailKey := some k }
      else r1
    | none => r1
  match preview with
  | some (k, u) =>
    if u ≠ "" ∧ k ≠ "" then
      { r2 with previewUrl := some u, previewKey := some k }
    else r2
  | none => r2

/-- The `video.asset.ready` case (route.ts lines 111-202): require truthy
`upload_id` and first playback id, look the record up, mirror the thumbnail
and the preview independently (each failure swallowed), then update the
primary fields plus whichever mirrored locations are truthy. -/
def handleAssetReady (now : Nat) (mirror : String → Option (String × String))
    (d : AssetEventData) (db : List VideoRecord) : Nat × List VideoRecord :=
  if strTruthy d.upload_id then
    let uid := d.upload_id.getD ""
    let playbackId := (d.playback_ids.head?).bind PlaybackId.id
    if strTruthy playbackId then
      let pb := playbackId.getD ""
      match findByUploadId db uid with
      | none => (404, db)
      | some _ =>
        (200, updateByUploadId db uid
          (readyPatch now d pb (mirror (thumbSourceUrl pb))
            (mirror (previewSourceUrl pb))))
    else (400, db)
  else (400, db)

/-- The `.set({...})` block of the `video.asset.errored` case. -/
def erroredPatch (now : Nat) (d : AssetEventData) (r : VideoRecord) :
    VideoRecord :=
  { r with
    muxStatus := setOrKeep d.status r.muxStatus
    updatedAt := now }

/-- The `video.asset.errored` case (route.ts lines 204-237): require a truthy
`upload_id`, look the record up, then set `muxStatus` and `updatedAt`. -/
def handleAssetErrored (now : Nat) (d : AssetEventData)
    (db : List VideoRecord) : Nat × List VideoRecord :=
  if strTruthy d.upload_id then
    let uid := d.upload_id.getD ""
    match findByUploadId db uid with
    | none => (404, db)
    | some _ => (200, updateByUploadId db uid (erroredPatch now d))
  else (400, db)

/-- The `video.asset.deleted` case (route.ts lines 239-296): require a truthy
`upload_id`; if a record is found, best-effort-delete its mirrored assets
(results and failures of `del` are discarded, as the route swallows them)
and delete the row by its `id`; otherwise fall back to a delete keyed by
`muxUploadId`.  The case never fails: it always reaches the 200 response. -/
def handleAssetDeleted (del : String → Bool) (d : AssetEventData)
    (db : List VideoRecord) : Nat × List VideoRecord :=
  if strTruthy d.upload_id then
    let uid := d.upload_id.getD ""
    match findByUploadId db uid with
    | some v =>
      let _ := v.thumbnailKey.map del
      let _ := v.previewKey.map del
      (200, deleteById db v.id)
    | none => (200, deleteByUploadId db uid)
  else (400, db)

/-- The `.set({...})` block of the `video.asset.track.ready` case. -/
def trackPatch (now : Nat) (d : AssetEventData) (r : VideoRecord) :
    VideoRecord :=
  { r with
    muxTrackId := setOrKeep d.id r.muxTrackId
    muxTrackStatus := setOrKeep d.status r.muxTrackStatus
    updatedAt := now }

/-- The `video.asset.track.ready` case (route.ts lines 298-340): require a
truthy `asset_id`, look the record up by it, then set `muxTrackId`,
`muxTrackStatus` and `updatedAt`. -/
def handleTrackReady (now : Nat) (d : AssetEventData)
    (db : List VideoRecord) : Nat × List VideoRecord :=
  if strTruthy d.asset_id then
    let aid := d.asset_id.getD ""
    match findByAssetId db aid with
    | none => (404, db)
    | some _ => (200, updateByAssetId db aid (trackPatch now d))
  else (400, db)

/-- Dispatch on the event-kind string (the `switch` of route.ts).  Reading
`payload.data` when the property is absent or null is a thrown `TypeError`,
caught by the case's handler and reported as 500; unrecognised kinds fall to
the default and are acknowledged with 200. -/
def dispatchEvent (env : Env) (payload : Json) (kind : String)
    (db : List VideoRecord) : Nat × List VideoRecord :=
  if kind = "video.asset.created" then
    match jsGet payload "data" with
    | none => (500, db)
    | some .null => (500, db)
    | some d => handleAssetCreated env.now (decodeData d) db
  else if kind = "video.asset.ready" then
    match jsGet payload "data" with
    | none => (500, db)
    | some .null => (500, db)
    | some d => handleAssetReady env.now env.mirror (decodeData d) db
  else if kind = "video.asset.errored" then
    match jsGet payload "data" with
    | none => (500, db)
    | some .null => (500, db)
    | some d => handleAssetErrored env.now (decodeData d) db
  else if kind = "video.asset.deleted" then
    match jsGet payload "data" with
    | none => (500, db)
    | some .null => (500, db)
    | some d => handleAssetDeleted env.del (decodeData d) db
  else if kind = "video.asset.track.ready" then
    match jsGet payload "data" with
    | none => (500, db)
    | some .null => (500, db)
    | some d => handleTrackReady env.now (decodeData d) db
  else (200, db)

/-- An inbound request: its raw body text and the `mux-signature` header. -/
structure WebhookRequest where
  rawBody : String
  muxSignature : Option String

/-- The intermediate the route verifies the signature over: the parsed
payload re-serialised by `JSON.stringify` (route.ts lines 46-47). -/
def verifiedBody (raw : String) : Option String :=
  (Json.parse raw).map Json.stringify

/-- The route handler `POST` (route.ts lines 24-354): configuration check,
signature-header check, body parse, signature verification over the
re-serialised body, event-kind extraction, dispatch.  The result is the
response status paired with the resulting table state. -/
def POST (env : Env) (req : WebhookRequest) (db : List VideoRecord) :
    Nat × List VideoRecord :=
  if strTruthy env.secret then
    let secret := env.secret.getD ""
    if strTruthy req.muxSignature then
      let sig := req.muxSignature.getD ""
      match Json.parse req.rawBody with
      | none => (400, db)
      | some payload =>
        let body := Json.stringify payload
        if env.verify body sig secret then
          match jsGet payload "type" with
          | none => (400, db)
          | some t =>
            if jsTruthy t then
              match t with
              | .str kind => dispatchEvent env payload kind db
              | _ => (200, db)
            else (400, db)
        else (401, db)
    else (401, db)
  else (500, db)

/-! ## Helper definitions and lemmas -/

/-- A record with its timestamp removed, for comparisons of store states up
to `updatedAt`. -/
def eraseTime (r : VideoRecord) : VideoRecord :=
  { r with updatedAt := 0 }

theorem roundMilli_eq_floor (n : DecNum) :
    roundMilli n = Int.floor (n.toRat * 1000 + 1 / 2) := by
  unfold roundMilli DecNum.toRat
  have hb : (0 : Int) ≤ 2 * 10 ^ n.exp10 := by positivity
  rw [Int.fdiv_eq_ediv _ hb]
  have harg : (n.mant : ℚ) / 10 ^ n.exp10 * 1000 + 1 / 2
      = ((2000 * n.mant + 10 ^ n.exp10 : ℤ) : ℚ)
        / ((2 * 10 ^ n.exp10 : ℕ) : ℚ) := by
    have h10 : ((10 : ℚ) ^ n.exp10) ≠ 0 := by positivity
    push_cast
    field_simp
    ring
  rw [harg, Rat.floor_intCast_div_natCast]
  norm_cast

/-! ## Claims -/

set_option maxRecDepth 1000000

/-- C1: the receiver does not verify the signature over the raw, unmodified
body bytes: it re-serialises the parsed payload (`body :=
JSON.stringify(payload)`, route.ts lines 46-47) and verifies over that.  For
the raw body consisting of an open brace, a space and a close brace, the
verified bytes are the two-character compact form, which differs from the raw
bytes; under a signature scheme that accepts exactly the signature equal to
the signed bytes, the request carrying a signature valid for the raw bytes is
rejected with 401. -/
theorem c1_signature_over_reserialized_not_raw_bytes :
    verifiedBody "\x7b \x7d" = some "\x7b\x7d" ∧
    ("\x7b\x7d" : String) ≠ "\x7b \x7d" ∧
    (("\x7b \x7d" == "\x7b \x7d") = true) ∧
    POST
      { secret := some "whsec"
        verify := fun body sig _ => body == sig
        mirror := fun _ => none
        del := fun _ => true
        now := 0 }
      { rawBody := "\x7b \x7d", muxSignature := some "\x7b \x7d" } [] =
      (401, []) := by
  decide

/-- C2: a request without a truthy `mux-signature` header is answered 401
with the store untouched, and a request whose re-serialised payload fails
signature verification is answered 401 with the store untouched. -/
theorem c2_unauthenticated_rejected_without_mutation (env : Env)
    (req : WebhookRequest) (db : List VideoRecord) (sec : String)
    (hsec : env.secret = some sec) (hsec2 : sec ≠ "") :
    (req.muxSignature = none → POST env req db = (401, db)) ∧
    (∀ sig payload, req.muxSignature = some sig → sig ≠ "" →
      Json.parse req.rawBody = some payload →
      env.verify (Json.stringify payload) sig sec = false →
      POST env req db = (401, db)) := by
  constructor
  · intro h
    simp [POST, h, strTruthy, hsec, hsec2]
  · intro sig payload hs hs2 hp hv
    simp [POST, hs, hs2, strTruthy, hsec, hsec2, hp, hv]

/-- Witness for C2 at concrete inputs: a request with no signature header,
and a request whose verification fails. -/
theorem c2_witness :
    POST
      { secret := some "whsec", verify := fun _ _ _ => false
        mirror := fun _ => none, del := fun _ => true, now := 0 }
      { rawBody := "ignored", muxSignature := none } [] = (401, []) ∧
    POST
      { secret := some "whsec", verify := fun _ _ _ => false
        mirror := fun _ => none, del := fun _ => true, now := 0 }
      { rawBody := "\x7b\x7d", muxSignature := some "sig" } [] = (401, []) := by
  constructor
  · exact (c2_unauthenticated_rejected_without_mutation _ _ _ "whsec" rfl
      (by decide)).1 rfl
  · exact (c2_unauthenticated_rejected_without_mutation _ _ _ "whsec" rfl
      (by decide)).2 "sig" (Json.obj []) rfl (by decide) rfl rfl

/-- C3: the documented end-to-end scenario: a `video.asset.ready` event for
`up_1` carrying asset `asset_1`, playback id `pb_1` and duration 12.5 s, with
a signature the verifier accepts and an existing record with
`muxUploadId = "up_1"`, updates that record to `muxStatus = "ready"`,
`muxPlaybackId = "pb_1"`, `muxAssetId = "asset_1"`, `duration = 12500`, and
responds 200. -/
theorem c3_asset_ready_scenario :
    POST
      { secret := some "whsec"
        verify := fun _ _ _ => true
        mirror := fun _ => none
        del := fun _ => true
        now := 99 }
      { rawBody := "\x7b\"type\":\"video.asset.ready\",\"data\":\x7b\"upload_id\":\"up_1\",\"id\":\"asset_1\",\"status\":\"ready\",\"playback_ids\":[\x7b\"id\":\"pb_1\"\x7d],\"duration\":12.5\x7d\x7d"
        muxSignature := some "valid-signature" }
      [{ id := 7, muxUploadId := "up_1", muxStatus := some "waiting" }] =
    (200,
      [{ id := 7, muxUploadId := "up_1", muxAssetId := some "asset_1",
         muxStatus := some "ready", muxPlaybackId := some "pb_1",
         duration := 12500, updatedAt := 99 }]) := by
  decide

theorem readyPatch_muxUploadId (now : Nat) (d : AssetEventData) (pb : String)
    (th pv : Option (String × String)) (r : VideoRecord) :
    (readyPatch now d pb th pv r).muxUploadId = r.muxUploadId := by
  unfold readyPatch
  rcases th with _ | ⟨k, u⟩ <;> rcases pv with _ | ⟨k2, u2⟩ <;>
    dsimp <;> split_ifs <;> rfl

theorem readyPatch_duration (now : Nat) (d : AssetEventData) (pb : String)
    (th pv : Option (String × String)) (r : VideoRecord) :
    (readyPatch now d pb th pv r).duration = durationOf d := by
  unfold readyPatch
  rcases th with _ | ⟨k, u⟩ <;> rcases pv with _ | ⟨k2, u2⟩ <;>
    dsimp <;> split_ifs <;> rfl

theorem durationOf_eq_round (d : AssetEventData) :
    durationOf d =
      match d.duration with
      | some q => Int.floor (q.toRat * 1000 + 1 / 2)
      | none => 0 := by
  unfold durationOf
  cases hq : d.duration with
  | none => rfl
  | some q =>
    dsimp
    by_cases hm : q.mant = 0
    · have ht : q.toRat = 0 := by simp [DecNum.toRat, hm]
      simp [hm, ht]
      norm_num
    · simp [hm, roundMilli_eq_floor]

/-- Reduction of the `video.asset.ready` handler in the found-record case. -/
theorem handleAssetReady_found (now : Nat)
    (mirror : String → Option (String × String)) (d : AssetEventData)
    (db : List VideoRecord) (uid pb : String) (v : VideoRecord)
    (hu : d.upload_id = some uid) (hu2 : uid ≠ "")
    (hp : (d.playback_ids.head?).bind PlaybackId.id = some pb) (hp2 : pb ≠ "")
    (hv : findByUploadId db uid = some v) :
    handleAssetReady now mirror d db =
      (200, updateByUploadId db uid
        (readyPatch now d pb (mirror (thumbSourceUrl pb))
          (mirror (previewSourceUrl pb)))) := by
  unfold handleAssetReady
  rw [hu]
  have h1 : strTruthy (some uid) = true := by simp [strTruthy, hu2]
  have h2 : strTruthy (some pb) = true := by simp [strTruthy, hp2]
  simp only [Option.getD_some, h1, if_true, hp, h2]
  rw [hv]

/-- C4 counterexample: a well-formed `asset.ready` event whose duration field
is -1 second produces a stored duration of -1000 milliseconds — the code has
no minimum-0 clamp, so the stored value is negative. -/
theorem c4_negative_duration_counterexample :
    ((handleAssetReady 5 (fun _ => none)
      { upload_id := some "up_1", id := some "a1", status := some "ready",
        playback_ids := [{ id := some "pb" }], duration := some ⟨-1, 0⟩ }
      [{ id := 1, muxUploadId := "up_1" }]).2.map VideoRecord.duration
      = [-1000]) ∧ (-1000 : Int) < 0 := by
  decide

/-- C4 amended: for every well-formed `asset.ready` event reaching its
update, the stored duration of the matched records equals
`⌊seconds * 1000 + 1/2⌋` (JavaScript `Math.round(seconds * 1000)`), and 0
when the duration field is absent; it is nonnegative whenever the event's
duration is nonnegative (but not clamped: negative inputs store negative
values). -/
theorem c4_duration_formula_amended (now : Nat)
    (mirror : String → Option (String × String)) (d : AssetEventData)
    (db : List VideoRecord) (uid pb : String) (v : VideoRecord)
    (hu : d.upload_id = some uid) (hu2 : uid ≠ "")
    (hp : (d.playback_ids.head?).bind PlaybackId.id = some pb) (hp2 : pb ≠ "")
    (hv : findByUploadId db uid = some v) :
    ∀ r2 ∈ (handleAssetReady now mirror d db).2, r2.muxUploadId = uid →
      (r2.duration =
        match d.duration with
        | some q => Int.floor (q.toRat * 1000 + 1 / 2)
        | none => 0) ∧
      (∀ q, d.duration = some q → 0 ≤ q.toRat → 0 ≤ r2.duration) := by
  rw [handleAssetReady_found now mirror d db uid pb v hu hu2 hp hp2 hv]
  intro r2 hmem hr2
  simp only [updateByUploadId, List.mem_map] at hmem
  obtain ⟨r, hrdb, hr⟩ := hmem
  by_cases h : r.muxUploadId = uid
  · rw [if_pos h] at hr
    have hdur : r2.duration = durationOf d := by
      rw [← hr]; exact readyPatch_duration ..
    constructor
    · rw [hdur, durationOf_eq_round]
    · intro q hq hq0
      rw [hdur, durationOf_eq_round, hq]
      have harg : (0 : ℚ) ≤ q.toRat * 1000 + 1 / 2 := by
        have : (0 : ℚ) ≤ q.toRat * 1000 := by positivity
        linarith
      simpa using Int.floor_nonneg.mpr harg
  · rw [if_neg h] at hr
    rw [← hr] at hr2
    exact absurd hr2 h

/-- Witness for the amended C4 at a concrete ready event (12.5 seconds): the
updated record's stored duration satisfies the rounding formula and the
nonnegativity consequence. -/
theorem c4_duration_formula_amended_witness :
    (({ id := 1, muxUploadId := "up_1", muxAssetId := some "a1",
        muxStatus := some "ready", muxPlaybackId := some "pb",
        duration := 12500, updatedAt := 3 } : VideoRecord).duration =
      match (some (⟨125, 1⟩ : DecNum) : Option DecNum) with
      | some q => Int.floor (q.toRat * 1000 + 1 / 2)
      | none => 0) ∧
    (∀ q, (some (⟨125, 1⟩ : DecNum) : Option DecNum) = some q →
      0 ≤ q.toRat →
      0 ≤ ({ id := 1, muxUploadId := "up_1", muxAssetId := some "a1",
             muxStatus := some "ready", muxPlaybackId := some "pb",
             duration := 12500, updatedAt := 3 } : VideoRecord).duration) :=
  c4_duration_formula_amended 3 (fun _ => none)
    { upload_id := some "up_1", id := some "a1", status := some "ready",
      playback_ids := [{ id := some "pb" }], duration := some ⟨125, 1⟩ }
    [{ id := 1, muxUploadId := "up_1" }] "up_1" "pb"
    { id := 1, muxUploadId := "up_1" } rfl (by decide) rfl (by decide) rfl
    { id := 1, muxUploadId := "up_1", muxAssetId := some "a1",
      muxStatus := some "ready", muxPlaybackId := some "pb",
      duration := 12500, updatedAt := 3 } (by decide) rfl

theorem findByUploadId_updateByUploadId (db : List VideoRecord) (uid : String)
    (f : VideoRecord → VideoRecord)
    (hf : ∀ r, (f r).muxUploadId = r.muxUploadId) :
    findByUploadId (updateByUploadId db uid f) uid
      = (findByUploadId db uid).map f := by
  unfold findByUploadId updateByUploadId
  induction db with
  | nil => rfl
  | cons r rest ih =>
    by_cases h : r.muxUploadId = uid
    · simp [List.find?_cons, h, hf]
    · simp [List.find?_cons, h, ih]

theorem map_eraseTime_update_twice (db : List VideoRecord) (uid : String)
    (f1 f2 : VideoRecord → VideoRecord)
    (hf1 : ∀ r, (f1 r).muxUploadId = r.muxUploadId)
    (h12 : ∀ r, eraseTime (f2 (f1 r)) = eraseTime (f1 r)) :
    (updateByUploadId (updateByUploadId db uid f1) uid f2).map eraseTime
      = (updateByUploadId db uid f1).map eraseTime := by
  unfold updateByUploadId
  simp only [List.map_map]
  apply List.map_congr_left
  intro r _
  by_cases h : r.muxUploadId = uid
  · simp only [Function.comp_apply, if_pos h, hf1, h12]
  · simp only [Function.comp_apply, if_neg h]

theorem eraseTime_readyPatch_readyPatch (n1 n2 : Nat) (d : AssetEventData)
    (pb : String) (th pv : Option (String × String)) (r : VideoRecord) :
    eraseTime (readyPatch n2 d pb th pv (readyPatch n1 d pb th pv r))
      = eraseTime (readyPatch n1 d pb th pv r) := by
  obtain ⟨u0, i0, s0, p0, du0, a0⟩ := d
  simp only [readyPatch, eraseTime, setOrKeep]
  rcases th with _ | ⟨k, u⟩ <;> rcases pv with _ | ⟨k2, u2⟩ <;>
    rcases i0 with _ | aid <;> rcases s0 with _ | st <;>
      dsimp <;> split_ifs <;> rfl

/-- C5: replaying the same well-formed `asset.ready` event on a store with a
matching record yields, up to `updatedAt`, the same store state as applying
it once (external mirror responses held fixed across the two deliveries). -/
theorem c5_ready_replay_idempotent (now1 now2 : Nat)
    (mirror : String → Option (String × String)) (d : AssetEventData)
    (db : List VideoRecord) (uid pb : String) (v : VideoRecord)
    (hu : d.upload_id = some uid) (hu2 : uid ≠ "")
    (hp : (d.playback_ids.head?).bind PlaybackId.id = some pb) (hp2 : pb ≠ "")
    (hv : findByUploadId db uid = some v) :
    ((handleAssetReady now2 mirror d
        (handleAssetReady now1 mirror d db).2).2).map eraseTime
      = ((handleAssetReady now1 mirror d db).2).map eraseTime := by
  have h1 := handleAssetReady_found now1 mirror d db uid pb v hu hu2 hp hp2 hv
  have hpres : ∀ r, (readyPatch now1 d pb (mirror (thumbSourceUrl pb))
      (mirror (previewSourceUrl pb)) r).muxUploadId = r.muxUploadId :=
    fun r => readyPatch_muxUploadId ..
  have hfind2 : findByUploadId (handleAssetReady now1 mirror d db).2 uid
      = some (readyPatch now1 d pb (mirror (thumbSourceUrl pb))
          (mirror (previewSourceUrl pb)) v) := by
    rw [h1]
    simpa [hv] using findByUploadId_updateByUploadId db uid _ hpres
  have h2 := handleAssetReady_found now2 mirror d
    (handleAssetReady now1 mirror d db).2 uid pb _ hu hu2 hp hp2 hfind2
  rw [h2, h1]
  exact map_eraseTime_update_twice db uid _ _ hpres
    (fun r => eraseTime_readyPatch_readyPatch ..)

/-- Witness for C5 at a concrete ready event and single-record store. -/
theorem c5_ready_replay_idempotent_witness :
    ((handleAssetReady 8 (fun _ => some ("k", "u"))
        { upload_id := some "up_1", id := some "a1", status := some "ready",
          playback_ids := [{ id := some "pb" }], duration := some ⟨125, 1⟩ }
        (handleAssetReady 7 (fun _ => some ("k", "u"))
          { upload_id := some "up_1", id := some "a1", status := some "ready",
            playback_ids := [{ id := some "pb" }], duration := some ⟨125, 1⟩ }
          [{ id := 1, muxUploadId := "up_1" }]).2).2).map eraseTime
      = ((handleAssetReady 7 (fun _ => some ("k", "u"))
          { upload_id := some "up_1", id := some "a1", status := some "ready",
            playback_ids := [{ id := some "pb" }], duration := some ⟨125, 1⟩ }
          [{ id := 1, muxUploadId := "up_1" }]).2).map eraseTime :=
  c5_ready_replay_idempotent 7 8 (fun _ => some ("k", "u"))
    { upload_id := some "up_1", id := some "a1", status := some "ready",
      playback_ids := [{ id := some "pb" }], duration := some ⟨125, 1⟩ }
    [{ id := 1, muxUploadId := "up_1" }] "up_1" "pb"
    { id := 1, muxUploadId := "up_1" } rfl (by decide) rfl (by decide) rfl

/-- C6: every `asset.deleted` event carrying a truthy `upload_id` is answered
200, whatever the store contains and whatever the external cleanup calls
return (the route discards their results and exceptions); when no record
matches, the handler still issues the fallback delete keyed by `upload_id`,
which on that store is a no-op. -/
theorem c6_deleted_always_success (del : String → Bool) (d : AssetEventData)
    (db : List VideoRecord) (uid : String)
    (hu : d.upload_id = some uid) (hu2 : uid ≠ "") :
    (handleAssetDeleted del d db).1 = 200 ∧
    (findByUploadId db uid = none →
      (handleAssetDeleted del d db).2 = deleteByUploadId db uid ∧
      deleteByUploadId db uid = db) := by
  have ht : strTruthy (some uid) = true := by simp [strTruthy, hu2]
  constructor
  · unfold handleAssetDeleted
    rw [hu]
    simp only [ht, if_true, Option.getD_some]
    cases findByUploadId db uid <;> rfl
  · intro hnone
    constructor
    · unfold handleAssetDeleted
      rw [hu]
      simp only [ht, if_true, Option.getD_some, hnone]
    · unfold deleteByUploadId
      rw [List.filter_eq_self]
      intro r hr
      have hne := List.find?_eq_none.mp hnone r hr
      simpa using hne

/-- Witness for C6: a deleted event whose upload id matches nothing, under a
cleanup call that always fails. -/
theorem c6_deleted_always_success_witness :
    (handleAssetDeleted (fun _ => false) { upload_id := some "up_x" }
      [{ id := 1, muxUploadId := "up_1" }]).1 = 200 ∧
    (findByUploadId [{ id := 1, muxUploadId := "up_1" }] "up_x" = none →
      (handleAssetDeleted (fun _ => false) { upload_id := some "up_x" }
        [{ id := 1, muxUploadId := "up_1" }]).2
        = deleteByUploadId [{ id := 1, muxUploadId := "up_1" }] "up_x" ∧
      deleteByUploadId [{ id := 1, muxUploadId := "up_1" }] "up_x"
        = [{ id := 1, muxUploadId := "up_1" }]) :=
  c6_deleted_always_success (fun _ => false) { upload_id := some "up_x" }
    [{ id := 1, muxUploadId := "up_1" }] "up_x" rfl (by decide)

/-- C7: during `asset.ready` processing with a matching record, if exactly
one of the two mirror uploads fails and the other succeeds with truthy key
and URL, the response is 200 and the update writes the primary fields and the
successful pair only — the failed asset's location fields keep their prior
values (the record-update below leaves them untouched). -/
theorem c7_partial_mirror_update (now : Nat)
    (mirror : String → Option (String × String)) (d : AssetEventData)
    (db : List VideoRecord) (uid pb st aid k u : String) (v : VideoRecord)
    (hu : d.upload_id = some uid) (hu2 : uid ≠ "")
    (hp : (d.playback_ids.head?).bind PlaybackId.id = some pb) (hp2 : pb ≠ "")
    (hv : findByUploadId db uid = some v)
    (hst : d.status = some st) (haid : d.id = some aid)
    (hk : k ≠ "") (hu3 : u ≠ "") :
    (mirror (thumbSourceUrl pb) = none →
      mirror (previewSourceUrl pb) = some (k, u) →
      handleAssetReady now mirror d db =
        (200, updateByUploadId db uid (fun r =>
          { r with
            muxStatus := some st
            muxPlaybackId := some pb
            muxAssetId := some aid
            duration := durationOf d
            previewKey := some k
            previewUrl := some u
            updatedAt := now }))) ∧
    (mirror (thumbSourceUrl pb) = some (k, u) →
      mirror (previewSourceUrl pb) = none →
      handleAssetReady now mirror d db =
        (200, updateByUploadId db uid (fun r =>
          { r with
            muxStatus := some st
            muxPlaybackId := some pb
            muxAssetId := some aid
            duration := durationOf d
            thumbnailKey := some k
            thumbnailUrl := some u
            updatedAt := now }))) := by
  rw [handleAssetReady_found now mirror d db uid pb v hu hu2 hp hp2 hv]
  constructor
  · intro hthumb hprev
    rw [hthumb, hprev]
    unfold updateByUploadId
    congr 1
    apply List.map_congr_left
    intro r _
    by_cases h : r.muxUploadId = uid
    · rw [if_pos h, if_pos h]
      simp [readyPatch, setOrKeep, hst, haid, hk, hu3]
    · rw [if_neg h, if_neg h]
  · intro hthumb hprev
    rw [hthumb, hprev]
    unfold updateByUploadId
    congr 1
    apply List.map_congr_left
    intro r _
    by_cases h : r.muxUploadId = uid
    · rw [if_pos h, if_pos h]
      simp [readyPatch, setOrKeep, hst, haid, hk, hu3]
    · rw [if_neg h, if_neg h]

/-- Witness for C7: a mirror that fails the thumbnail URL and succeeds on the
animated-preview URL. -/
theorem c7_partial_mirror_update_witness :
    (((fun url => if url = previewSourceUrl "pb" then some ("k1", "u1")
        else none) : String → Option (String × String))
          (thumbSourceUrl "pb") = none →
      ((fun url => if url = previewSourceUrl "pb" then some ("k1", "u1")
        else none) : String → Option (String × String))
          (previewSourceUrl "pb") = some ("k1", "u1") →
      handleAssetReady 6
        (fun url => if url = previewSourceUrl "pb" then some ("k1", "u1")
          else none)
        { upload_id := some "up_1", id := some "a1", status := some "ready",
          playback_ids := [{ id := some "pb" }] }
        [{ id := 1, muxUploadId := "up_1" }] =
        (200, updateByUploadId [{ id := 1, muxUploadId := "up_1" }] "up_1"
          (fun r =>
            { r with
              muxStatus := some "ready"
              muxPlaybackId := some "pb"
              muxAssetId := some "a1"
              duration := durationOf
                { upload_id := some "up_1", id := some "a1",
                  status := some "ready", playback_ids := [{ id := some "pb" }] }
              previewKey := some "k1"
              previewUrl := some "u1"
              updatedAt := 6 }))) ∧
    (((fun url => if url = previewSourceUrl "pb" then some ("k1", "u1")
        else none) : String → Option (String × String))
          (thumbSourceUrl "pb") = some ("k1", "u1") →
      ((fun url => if url = previewSourceUrl "pb" then some ("k1", "u1")
        else none) : String → Option (String × String))
          (previewSourceUrl "pb") = none →
      handleAssetReady 6
        (fun url => if url = previewSourceUrl "pb" then some ("k1", "u1")
          else none)
        { upload_id := some "up_1", id := some "a1", status := some "ready",
          playback_ids := [{ id := some "pb" }] }
        [{ id := 1, muxUploadId := "up_1" }] =
        (200, updateByUploadId [{ id := 1, muxUploadId := "up_1" }] "up_1"
          (fun r =>
            { r with
              muxStatus := some "ready"
              muxPlaybackId := some "pb"
              muxAssetId := some "a1"
              duration := durationOf
                { upload_id := some "up_1", id := some "a1",
                  status := some "ready", playback_ids := [{ id := some "pb" }] }
              thumbnailKey := some "k1"
              thumbnailUrl := some "u1"
              updatedAt := 6 }))) :=
  c7_partial_mirror_update 6
    (fun url => if url = previewSourceUrl "pb" then some ("k1", "u1")
      else none)
    { upload_id := some "up_1", id := some "a1", status := some "ready",
      playback_ids := [{ id := some "pb" }] }
    [{ id := 1, muxUploadId := "up_1" }] "up_1" "pb" "ready" "a1" "k1" "u1"
    { id := 1, muxUploadId := "up_1" } rfl (by decide) rfl (by decide) rfl
    rfl rfl (by decide) (by decide)

/-- C8 counterexample: an `asset.errored` event missing its required `status`
field (per the spec table) but carrying a valid correlation key is not
rejected with 400 — the handler performs the lookup and answers 200, so
required-field validation beyond the correlation key does not happen. -/
theorem c8_missing_required_field_not_rejected :
    (handleAssetErrored 4 { upload_id := some "u1" }
      [{ id := 1, muxUploadId := "u1" }]).1 = 200 ∧
    (handleTrackReady 4 { asset_id := some "a1" }
      [{ id := 1, muxUploadId := "u1", muxAssetId := some "a1" }]).1 = 200 := by
  decide

/-- C8 amended: each handler validates only its correlation key — `upload_id`
for the four asset events, `asset_id` for `track.ready` — and, for
`asset.ready`, additionally the presence of a first playback id; when these
are missing it answers 400 with the store untouched, before any lookup.  The
other required fields of the table (asset id, status, trackId, duration) are
not validated. -/
theorem c8_correlation_key_validation (now : Nat)
    (mirror : String → Option (String × String)) (del : String → Bool)
    (d : AssetEventData) (db : List VideoRecord) :
    (strTruthy d.upload_id = false →
      handleAssetCreated now d db = (400, db) ∧
      handleAssetReady now mirror d db = (400, db) ∧
      handleAssetErrored now d db = (400, db) ∧
      handleAssetDeleted del d db = (400, db)) ∧
    (strTruthy d.asset_id = false → handleTrackReady now d db = (400, db)) ∧
    (strTruthy d.upload_id = true →
      strTruthy ((d.playback_ids.head?).bind PlaybackId.id) = false →
      handleAssetReady now mirror d db = (400, db)) := by
  refine ⟨fun h => ?_, fun h => ?_, fun h h2 => ?_⟩
  · exact ⟨by simp [handleAssetCreated, h], by simp [handleAssetReady, h],
      by simp [handleAssetErrored, h], by simp [handleAssetDeleted, h]⟩
  · simp [handleTrackReady, h]
  · simp [handleAssetReady, h, h2]

/-- Witness for the amended C8: events with missing or empty correlation
keys, and a ready event without playback ids. -/
theorem c8_correlation_key_validation_witness :
    ((strTruthy (AssetEventData.upload_id { status := some "errored" }) = false →
      handleAssetCreated 1 { status := some "errored" } [] = (400, []) ∧
      handleAssetReady 1 (fun _ => none) { status := some "errored" } [] =
        (400, []) ∧
      handleAssetErrored 1 { status := some "errored" } [] = (400, []) ∧
      handleAssetDeleted (fun _ => true) { status := some "errored" } [] =
        (400, [])) ∧
    (strTruthy (AssetEventData.asset_id { status := some "errored" }) = false →
      handleTrackReady 1 { status := some "errored" } [] = (400, [])) ∧
    (strTruthy (AssetEventData.upload_id { status := some "errored" }) = true →
      strTruthy ((AssetEventData.playback_ids
          { status := some "errored" }).head?.bind PlaybackId.id) = false →
      handleAssetReady 1 (fun _ => none) { status := some "errored" } [] =
        (400, []))) ∧
    ((strTruthy (AssetEventData.upload_id
        { upload_id := some "u1" }) = false →
      handleAssetCreated 1 { upload_id := some "u1" } [] = (400, []) ∧
      handleAssetReady 1 (fun _ => none) { upload_id := some "u1" } [] =
        (400, []) ∧
      handleAssetErrored 1 { upload_id := some "u1" } [] = (400, []) ∧
      handleAssetDeleted (fun _ => true) { upload_id := some "u1" } [] =
        (400, [])) ∧
    (strTruthy (AssetEventData.asset_id { upload_id := some "u1" }) = false →
      handleTrackReady 1 { upload_id := some "u1" } [] = (400, [])) ∧
    (strTruthy (AssetEventData.upload_id { upload_id := some "u1" }) = true →
      strTruthy ((AssetEventData.playback_ids
          { upload_id := some "u1" }).head?.bind PlaybackId.id) = false →
      handleAssetReady 1 (fun _ => none) { upload_id := some "u1" } [] =
        (400, []))) :=
  ⟨c8_correlation_key_validation 1 (fun _ => none) (fun _ => true)
      { status := some "errored" } [],
    c8_correlation_key_validation 1 (fun _ => none) (fun _ => true)
      { upload_id := some "u1" } []⟩

theorem list_get_congr {l1 l2 : List VideoRecord} (h : l1 = l2) (i : Nat)
    (h1 : i < l1.length) (h2 : i < l2.length) :
    l1.get ⟨i, h1⟩ = l2.get ⟨i, h2⟩ := by
  cases h; rfl

theorem getElem_updateByUploadId (db : List VideoRecord) (uid : String)
    (f : VideoRecord → VideoRecord) (i : Nat) (h1 : i < db.length)
    (h2 : i < (updateByUploadId db uid f).length) :
    (updateByUploadId db uid f).get ⟨i, h2⟩ =
      if (db.get ⟨i, h1⟩).muxUploadId = uid then f (db.get ⟨i, h1⟩)
      else db.get ⟨i, h1⟩ := by
  simp [updateByUploadId, List.get_eq_getElem, List.getElem_map]

theorem getElem_updateByAssetId (db : List VideoRecord) (aid : String)
    (f : VideoRecord → VideoRecord) (i : Nat) (h1 : i < db.length)
    (h2 : i < (updateByAssetId db aid f).length) :
    (updateByAssetId db aid f).get ⟨i, h2⟩ =
      if (db.get ⟨i, h1⟩).muxAssetId = some aid then f (db.get ⟨i, h1⟩)
      else db.get ⟨i, h1⟩ := by
  simp [updateByAssetId, List.get_eq_getElem, List.getElem_map]

/-- The store after `video.asset.created` is either unchanged or the update
keyed by the event's upload id. -/
theorem handleAssetCreated_state (now : Nat) (d : AssetEventData)
    (db : List VideoRecord) :
    (handleAssetCreated now d db).2 = db ∨
    (handleAssetCreated now d db).2
      = updateByUploadId db (d.upload_id.getD "") (createdPatch now d) := by
  unfold handleAssetCreated
  cases hfind : findByUploadId db (d.upload_id.getD "") <;>
    by_cases h : strTruthy d.upload_id <;> simp [h, hfind]

/-- The store after `video.asset.errored` is either unchanged or the update
keyed by the event's upload id. -/
theorem handleAssetErrored_state (now : Nat) (d : AssetEventData)
    (db : List VideoRecord) :
    (handleAssetErrored now d db).2 = db ∨
    (handleAssetErrored now d db).2
      = updateByUploadId db (d.upload_id.getD "") (erroredPatch now d) := by
  unfold handleAssetErrored
  cases hfind : findByUploadId db (d.upload_id.getD "") <;>
    by_cases h : strTruthy d.upload_id <;> simp [h, hfind]

/-- The store after `video.asset.track.ready` is either unchanged or the
update keyed by the event's asset id. -/
theorem handleTrackReady_state (now : Nat) (d : AssetEventData)
    (db : List VideoRecord) :
    (handleTrackReady now d db).2 = db ∨
    (handleTrackReady now d db).2
      = updateByAssetId db (d.asset_id.getD "") (trackPatch now d) := by
  unfold handleTrackReady
  cases hfind : findByAssetId db (d.asset_id.getD "") <;>
    by_cases h : strTruthy d.asset_id <;> simp [h, hfind]

/-- The store after `video.asset.ready` is either unchanged or the update
keyed by the event's upload id with the ready patch for some playback id. -/
theorem handleAssetReady_state (now : Nat)
    (mirror : String → Option (String × String)) (d : AssetEventData)
    (db : List VideoRecord) :
    (handleAssetReady now mirror d db).2 = db ∨
    ∃ pb, (handleAssetReady now mirror d db).2
      = updateByUploadId db (d.upload_id.getD "")
          (readyPatch now d pb (mirror (thumbSourceUrl pb))
            (mirror (previewSourceUrl pb))) := by
  unfold handleAssetReady
  cases hfind : findByUploadId db (d.upload_id.getD "") <;>
    by_cases h : strTruthy d.upload_id <;>
      by_cases h2 : strTruthy ((d.playback_ids.head?).bind PlaybackId.id) <;>
        simp [h, h2, hfind]
  all_goals exact Or.inr ⟨_, rfl⟩

/-- The store after `video.asset.deleted` is unchanged, or a delete by record
id, or the fallback delete by upload id. -/
theorem handleAssetDeleted_state (del : String → Bool) (d : AssetEventData)
    (db : List VideoRecord) :
    (handleAssetDeleted del d db).2 = db ∨
    (∃ i, (handleAssetDeleted del d db).2 = deleteById db i) ∨
    (∃ uid, (handleAssetDeleted del d db).2 = deleteByUploadId db uid) := by
  unfold handleAssetDeleted
  cases hfind : findByUploadId db (d.upload_id.getD "") <;>
    by_cases h : strTruthy d.upload_id <;> simp [h, hfind]

theorem readyPatch_muxAssetId (now : Nat) (d : AssetEventData) (pb : String)
    (th pv : Option (String × String)) (r : VideoRecord) :
    (readyPatch now d pb th pv r).muxAssetId = setOrKeep d.id r.muxAssetId := by
  unfold readyPatch
  rcases th with _ | ⟨k, u⟩ <;> rcases pv with _ | ⟨k2, u2⟩ <;>
    dsimp <;> split_ifs <;> rfl

/-- C9 counterexample: a record whose `muxAssetId` is already `"a"` has it
overwritten with the different value `"b"` by a later `asset.created` event —
the handler writes the event's asset id unconditionally. -/
theorem c9_asset_reference_overwritten_counterexample :
    ((handleAssetCreated 2
        { upload_id := some "u1", id := some "b", status := some "created" }
        [{ id := 1, muxUploadId := "u1", muxAssetId := some "a" }]).2.map
        VideoRecord.muxAssetId = [some "b"]) ∧
    (some "b" : Option String) ≠ some "a" := by
  decide

/-- C9 amended: `asset.errored` and `track.ready` never change any record's
`muxAssetId`, and `asset.deleted` only removes records; but `asset.created`
and `asset.ready` write the event's asset id into every matched record
(keeping the prior value only when the event carries none), which can replace
a previously set different value. -/
theorem c9_asset_reference_amended (now : Nat)
    (mirror : String → Option (String × String)) (del : String → Bool)
    (d : AssetEventData) (db : List VideoRecord) :
    ((handleAssetErrored now d db).2.map VideoRecord.muxAssetId
      = db.map VideoRecord.muxAssetId) ∧
    ((handleTrackReady now d db).2.map VideoRecord.muxAssetId
      = db.map VideoRecord.muxAssetId) ∧
    (∀ r ∈ (handleAssetDeleted del d db).2, r ∈ db) ∧
    (∀ i (h1 : i < db.length)
        (h2 : i < (handleAssetCreated now d db).2.length),
      ((handleAssetCreated now d db).2.get ⟨i, h2⟩).muxAssetId
          = (db.get ⟨i, h1⟩).muxAssetId ∨
        ((handleAssetCreated now d db).2.get ⟨i, h2⟩).muxAssetId
          = setOrKeep d.id ((db.get ⟨i, h1⟩).muxAssetId)) ∧
    (∀ i (h1 : i < db.length)
        (h2 : i < (handleAssetReady now mirror d db).2.length),
      ((handleAssetReady now mirror d db).2.get ⟨i, h2⟩).muxAssetId
          = (db.get ⟨i, h1⟩).muxAssetId ∨
        ((handleAssetReady now mirror d db).2.get ⟨i, h2⟩).muxAssetId
          = setOrKeep d.id ((db.get ⟨i, h1⟩).muxAssetId)) := by
  refine ⟨?_, ?_, ?_, ?_, ?_⟩
  · rcases handleAssetErrored_state now d db with h | h
    · rw [h]
    · rw [h]
      unfold updateByUploadId
      simp only [List.map_map]
      apply List.map_congr_left
      intro r _
      by_cases hm : r.muxUploadId = d.upload_id.getD ""
      · simp [hm, erroredPatch]
      · simp [hm]
  · rcases handleTrackReady_state now d db with h | h
    · rw [h]
    · rw [h]
      unfold updateByAssetId
      simp only [List.map_map]
      apply List.map_congr_left
      intro r _
      by_cases hm : r.muxAssetId = some (d.asset_id.getD "")
      · simp [hm, trackPatch]
      · simp [hm]
  · intro r hr
    rcases handleAssetDeleted_state del d db with h | ⟨i, h⟩ | ⟨uid, h⟩
    · rwa [h] at hr
    · rw [h] at hr
      exact (List.mem_filter.mp hr).1
    · rw [h] at hr
      exact (List.mem_filter.mp hr).1
  · intro i h1 h2
    rcases handleAssetCreated_state now d db with h | h
    · exact Or.inl (congrArg VideoRecord.muxAssetId (list_get_congr h i h2 h1))
    · have := getElem_updateByUploadId db (d.upload_id.getD "")
        (createdPatch now d) i h1 (by rw [← h]; exact h2)
      rw [list_get_congr h i h2 (by rw [← h]; exact h2), this]
      by_cases hm : (db.get ⟨i, h1⟩).muxUploadId = d.upload_id.getD ""
      · rw [if_pos hm]
        exact Or.inr rfl
      · rw [if_neg hm]
        exact Or.inl rfl
  · intro i h1 h2
    rcases handleAssetReady_state now mirror d db with h | ⟨pb, h⟩
    · exact Or.inl (congrArg VideoRecord.muxAssetId (list_get_congr h i h2 h1))
    · have := getElem_updateByUploadId db (d.upload_id.getD "")
        (readyPatch now d pb (mirror (thumbSourceUrl pb))
          (mirror (previewSourceUrl pb))) i h1 (by rw [← h]; exact h2)
      rw [list_get_congr h i h2 (by rw [← h]; exact h2), this]
      by_cases hm : (db.get ⟨i, h1⟩).muxUploadId = d.upload_id.getD ""
      · rw [if_pos hm]
        exact Or.inr (readyPatch_muxAssetId ..)
      · rw [if_neg hm]
        exact Or.inl rfl

/-- C10: each non-ready update writes only its designated fields plus
`updatedAt`; every other column of every row keeps its prior value:
`asset.created` preserves everything except `muxAssetId`, `muxStatus`,
`updatedAt`; `asset.errored` everything except `muxStatus`, `updatedAt`;
`track.ready` everything except `muxTrackId`, `muxTrackStatus`, `updatedAt` —
in particular none of them touches `muxPlaybackId`, `duration` or the
thumbnail and preview locations. -/
theorem c10_update_frame (now : Nat) (d : AssetEventData)
    (db : List VideoRecord) :
    ((handleAssetCreated now d db).2.length = db.length ∧
      ∀ i (h1 : i < db.length)
        (h2 : i < (handleAssetCreated now d db).2.length),
        ((handleAssetCreated now d db).2.get ⟨i, h2⟩).id
            = (db.get ⟨i, h1⟩).id ∧
        ((handleAssetCreated now d db).2.get ⟨i, h2⟩).muxUploadId
            = (db.get ⟨i, h1⟩).muxUploadId ∧
        ((handleAssetCreated now d db).2.get ⟨i, h2⟩).muxPlaybackId
            = (db.get ⟨i, h1⟩).muxPlaybackId ∧
        ((handleAssetCreated now d db).2.get ⟨i, h2⟩).duration
            = (db.get ⟨i, h1⟩).duration ∧
        ((handleAssetCreated now d db).2.get ⟨i, h2⟩).thumbnailKey
            = (db.get ⟨i, h1⟩).thumbnailKey ∧
        ((handleAssetCreated now d db).2.get ⟨i, h2⟩).thumbnailUrl
            = (db.get ⟨i, h1⟩).thumbnailUrl ∧
        ((handleAssetCreated now d db).2.get ⟨i, h2⟩).previewKey
            = (db.get ⟨i, h1⟩).previewKey ∧
        ((handleAssetCreated now d db).2.get ⟨i, h2⟩).previewUrl
            = (db.get ⟨i, h1⟩).previewUrl ∧
        ((handleAssetCreated now d db).2.get ⟨i, h2⟩).muxTrackId
            = (db.get ⟨i, h1⟩).muxTrackId ∧
        ((handleAssetCreated now d db).2.get ⟨i, h2⟩).muxTrackStatus
            = (db.get ⟨i, h1⟩).muxTrackStatus) ∧
    ((handleAssetErrored now d db).2.length = db.length ∧
      ∀ i (h1 : i < db.length)
        (h2 : i < (handleAssetErrored now d db).2.length),
        ((handleAssetErrored now d db).2.get ⟨i, h2⟩).id
            = (db.get ⟨i, h1⟩).id ∧
        ((handleAssetErrored now d db).2.get ⟨i, h2⟩).muxUploadId
            = (db.get ⟨i, h1⟩).muxUploadId ∧
        ((handleAssetErrored now d db).2.get ⟨i, h2⟩).muxAssetId
            = (db.get ⟨i, h1⟩).muxAssetId ∧
        ((handleAssetErrored now d db).2.get ⟨i, h2⟩).muxPlaybackId
            = (db.get ⟨i, h1⟩).muxPlaybackId ∧
        ((handleAssetErrored now d db).2.get ⟨i, h2⟩).duration
            = (db.get ⟨i, h1⟩).duration ∧
        ((handleAssetErrored now d db).2.get ⟨i, h2⟩).thumbnailKey
            = (db.get ⟨i, h1⟩).thumbnailKey ∧
        ((handleAssetErrored now d db).2.get ⟨i, h2⟩).thumbnailUrl
            = (db.get ⟨i, h1⟩).thumbnailUrl ∧
        ((handleAssetErrored now d db).2.get ⟨i, h2⟩).previewKey
            = (db.get ⟨i, h1⟩).previewKey ∧
        ((handleAssetErrored now d db).2.get ⟨i, h2⟩).previewUrl
            = (db.get ⟨i, h1⟩).previewUrl ∧
        ((handleAssetErrored now d db).2.get ⟨i, h2⟩).muxTrackId
            = (db.get ⟨i, h1⟩).muxTrackId ∧
        ((handleAssetErrored now d db).2.get ⟨i, h2⟩).muxTrackStatus
            = (db.get ⟨i, h1⟩).muxTrackStatus) ∧
    ((handleTrackReady now d db).2.length = db.length ∧
      ∀ i (h1 : i < db.length)
        (h2 : i < (handleTrackReady now d db).2.length),
        ((handleTrackReady now d db).2.get ⟨i, h2⟩).id
            = (db.get ⟨i, h1⟩).id ∧
        ((handleTrackReady now d db).2.get ⟨i, h2⟩).muxUploadId
            = (db.get ⟨i, h1⟩).muxUploadId ∧
        ((handleTrackReady now d db).2.get ⟨i, h2⟩).muxAssetId
            = (db.get ⟨i, h1⟩).muxAssetId ∧
        ((handleTrackReady now d db).2.get ⟨i, h2⟩).muxStatus
            = (db.get ⟨i, h1⟩).muxStatus ∧
        ((handleTrackReady now d db).2.get ⟨i, h2⟩).muxPlaybackId
            = (db.get ⟨i, h1⟩).muxPlaybackId ∧
        ((handleTrackReady now d db).2.get ⟨i, h2⟩).duration
            = (db.get ⟨i, h1⟩).duration ∧
        ((handleTrackReady now d db).2.get ⟨i, h2⟩).thumbnailKey
            = (db.get ⟨i, h1⟩).thumbnailKey ∧
        ((handleTrackReady now d db).2.get ⟨i, h2⟩).thumbnailUrl
            = (db.get ⟨i, h1⟩).thumbnailUrl ∧
        ((handleTrackReady now d db).2.get ⟨i, h2⟩).previewKey
            = (db.get ⟨i, h1⟩).previewKey ∧
        ((handleTrackReady now d db).2.get ⟨i, h2⟩).previewUrl
            = (db.get ⟨i, h1⟩).previewUrl) := by
  refine ⟨?_, ?_, ?_⟩
  · rcases handleAssetCreated_state now d db with h | h
    · rw [h]
      exact ⟨rfl, fun i h1 h2 =>
        ⟨rfl, rfl, rfl, rfl, rfl, rfl, rfl, rfl, rfl, rfl⟩⟩
    · constructor
      · rw [h]; simp [updateByUploadId]
      · intro i h1 h2
        have h2b : i < (updateByUploadId db (d.upload_id.getD "")
            (createdPatch now d)).length := by rw [← h]; exact h2
        rw [list_get_congr h i h2 h2b,
          getElem_updateByUploadId db _ _ i h1 h2b]
        by_cases hm : (db.get ⟨i, h1⟩).muxUploadId = d.upload_id.getD ""
        · rw [if_pos hm]
          exact ⟨rfl, rfl, rfl, rfl, rfl, rfl, rfl, rfl, rfl, rfl⟩
        · rw [if_neg hm]
          exact ⟨rfl, rfl, rfl, rfl, rfl, rfl, rfl, rfl, rfl, rfl⟩
  · rcases handleAssetErrored_state now d db with h | h
    · rw [h]
      exact ⟨rfl, fun i h1 h2 =>
        ⟨rfl, rfl, rfl, rfl, rfl, rfl, rfl, rfl, rfl, rfl, rfl⟩⟩
    · constructor
      · rw [h]; simp [updateByUploadId]
      · intro i h1 h2
        have h2b : i < (updateByUploadId db (d.upload_id.getD "")
            (erroredPatch now d)).length := by rw [← h]; exact h2
        rw [list_get_congr h i h2 h2b,
          getElem_updateByUploadId db _ _ i h1 h2b]
        by_cases hm : (db.get ⟨i, h1⟩).muxUploadId = d.upload_id.getD ""
        · rw [if_pos hm]
          exact ⟨rfl, rfl, rfl, rfl, rfl, rfl, rfl, rfl, rfl, rfl, rfl⟩
        · rw [if_neg hm]
          exact ⟨rfl, rfl, rfl, rfl, rfl, rfl, rfl, rfl, rfl, rfl, rfl⟩
  · rcases handleTrackReady_state now d db with h | h
    · rw [h]
      exact ⟨rfl, fun i h1 h2 =>
        ⟨rfl, rfl, rfl, rfl, rfl, rfl, rfl, rfl, rfl, rfl⟩⟩
    · constructor
      · rw [h]; simp [updateByAssetId]
      · intro i h1 h2
        have h2b : i < (updateByAssetId db (d.asset_id.getD "")
            (trackPatch now d)).length := by rw [← h]; exact h2
        rw [list_get_congr h i h2 h2b,
          getElem_updateByAssetId db _ _ i h1 h2b]
        by_cases hm : (db.get ⟨i, h1⟩).muxAssetId = some (d.asset_id.getD "")
        · rw [if_pos hm]
          exact ⟨rfl, rfl, rfl, rfl, rfl, rfl, rfl, rfl, rfl, rfl⟩
        · rw [if_neg hm]
          exact ⟨rfl, rfl, rfl, rfl, rfl, rfl, rfl, rfl, rfl, rfl⟩
